import Mathlib

/-!
Shallow embedding of the alerting engine of the IoT industrial safety layer
(src/backend/app/main.py together with the table schemas of
src/backend/db/database.py).

Modelling conventions:
- Python floats are embedded as exact rationals.  The timestamp columns
  (sensor_data.timestamp, alerts.created_at, alerts.resolved_at) are embedded
  as natural numbers supplied by an external clock; rows are stored in
  insertion order and the SQL query ordering by timestamp descending is read
  off the insertion order, since datetime.utcnow is monotone over a run.
- The two module-level defaultdict deques (temp_history, gas_history) become
  total functions from device id to the window contents, oldest value first,
  with the empty window as the default.
- The one fallible storage call that the handler guards (the reading insert
  wrapped in try/except, which returns an error payload and stops) is driven
  by an explicit storageOk oracle input.  Request validation performed by the
  pydantic model SensorData is embedded as the predicate validReading checked
  before the handler body, and a rejected request leaves the state untouched.
- Python raises ZeroDivisionError when the rolling average is zero at lines
  146-147 of main.py; the embedding returns the Except.error case there, and
  the step ends in the fault outcome with exactly the state mutations that
  precede those lines (reading row committed, windows appended, no alert row
  written, no auto-resolve executed), mirroring the uncaught exception.
-/

namespace IoTSafety

/-- Alert type strings written by main.py into alerts.alert_type. -/
inductive AlertType
  | HIGH_GAS
  | HIGH_TEMP
  | LOW_TEMP
  | TEMP_ANOMALY
  | GAS_ANOMALY
  | TEMP_ROLLING_ANOMALY
  | GAS_ROLLING_ANOMALY
  deriving DecidableEq, Repr

/-- Severity strings written by main.py into alerts.severity. -/
inductive Severity
  | LOW
  | MEDIUM
  | HIGH
  deriving DecidableEq, Repr

/-- Alert message payloads of main.py.  The seven fixed strings become seven
constant constructors; the two rolling-anomaly messages interpolate the
deviation percentage formatted to one decimal place, embedded here as the
rational payload already rounded to tenths (see fmt1). -/
inductive Msg
  | dangerousGas
  | elevatedGas
  | criticalTemp
  | highTemp
  | lowTemp
  | tempDeviates
  | gasDeviates
  | tempRollingPct (p : ℚ)
  | gasRollingPct (p : ℚ)
  deriving DecidableEq, Repr

/-- Fixed-point formatting to one decimal place, modelling the Python format
specifier .1f applied to the deviation percentage: the value rounded to the
nearest tenth.  (Tie-breaking differences between binary floats and exact
rationals are below the resolution of this model.) -/
def fmt1 (x : ℚ) : ℚ := (round (10 * x) : ℤ) / 10

/-- Request body of POST /sensor-data (pydantic model SensorData). -/
structure Reading where
  device_id : String
  temperature : ℚ
  gas_level : ℚ
  deriving DecidableEq, Repr

/-- Row of the sensor_data table (database.py): id is kept implicit through
list position, timestamp is the clock value at insertion. -/
structure SensorRow where
  device_id : String
  temperature : ℚ
  gas_level : ℚ
  timestamp : ℕ
  deriving DecidableEq, Repr

/-- Row of the alerts table (database.py). -/
structure AlertRow where
  device_id : String
  alert_type : AlertType
  severity : Severity
  message : Msg
  is_active : Bool
  created_at : ℕ
  resolved_at : Option ℕ
  deriving DecidableEq, Repr

/-- Candidate alert event produced by the rule code before insertion: the
tuples (alert_type, severity, message) appended to the alerts list in the
handler. -/
structure AlertEvent where
  alert_type : AlertType
  severity : Severity
  message : Msg
  deriving DecidableEq, Repr

/-- Whole engine state: the two tables plus the two in-memory window maps. -/
structure EngineState where
  sensor_data : List SensorRow
  alerts : List AlertRow
  temp_history : String → List ℚ
  gas_history : String → List ℚ

/-- Fresh engine: empty tables, empty windows for every device. -/
def initState : EngineState :=
  { sensor_data := []
    alerts := []
    temp_history := fun _ => []
    gas_history := fun _ => [] }

/-- WINDOW_SIZE = 20 in main.py. -/
def WINDOW_SIZE : ℕ := 20

/-- Appending one value to a deque with maxlen = WINDOW_SIZE: the new value
goes to the right and, past capacity, the leftmost (oldest) value is dropped,
so the result keeps only the most recent WINDOW_SIZE values. -/
def observe (w : List ℚ) (v : ℚ) : List ℚ :=
  (w ++ [v]).drop ((w ++ [v]).length - WINDOW_SIZE)

/-- Arithmetic mean, as statistics.mean and as sum(xs)/len(xs) in main.py. -/
def listMean (l : List ℚ) : ℚ := l.sum / l.length

/-- Bessel-corrected sample variance (divide by N-1), the square of
statistics.stdev used at line 67 of main.py. -/
def sampleVariance (l : List ℚ) : ℚ :=
  (l.map (fun v => (v - listMean l) ^ 2)).sum / ((l.length : ℚ) - 1)

/-- Function zscore_anomaly of main.py (lines 62-72).  The source compares
abs(current - mean) > 3 * stdev with stdev = sqrt of the sample variance;
since both sides are nonnegative this is equivalent to
(current - mean)^2 > 9 * variance, and stdev = 0 iff variance = 0, so the
embedding works with the variance and avoids the irrational square root. -/
def zscore_anomaly (values : List ℚ) (current : ℚ) : Bool :=
  if values.length < 10 then false
  else
    if sampleVariance values = 0 then false
    else decide ((current - listMean values) ^ 2 > 9 * sampleVariance values)

/-- Gas threshold rule (lines 102-105 of main.py). -/
def gasThresholdEvents (g : ℚ) : List AlertEvent :=
  if g > 600 then [⟨.HIGH_GAS, .HIGH, .dangerousGas⟩]
  else if g > 300 then [⟨.HIGH_GAS, .MEDIUM, .elevatedGas⟩]
  else []

/-- Temperature threshold rule (lines 107-112 of main.py). -/
def tempThresholdEvents (t : ℚ) : List AlertEvent :=
  if t > 80 then [⟨.HIGH_TEMP, .HIGH, .criticalTemp⟩]
  else if t > 60 then [⟨.HIGH_TEMP, .MEDIUM, .highTemp⟩]
  else if t < 0 then [⟨.LOW_TEMP, .LOW, .lowTemp⟩]
  else []

/-- Both threshold families in handler order: gas checks, then temperature. -/
def thresholdEvents (g t : ℚ) : List AlertEvent :=
  gasThresholdEvents g ++ tempThresholdEvents t

/-- Z-score events of the handler (lines 115-127): temperature first, then
gas, each evaluated against the already-updated window of its metric. -/
def zscoreEvents (tempWin gasWin : List ℚ) (t g : ℚ) : List AlertEvent :=
  (if zscore_anomaly tempWin t then [⟨.TEMP_ANOMALY, .MEDIUM, .tempDeviates⟩] else []) ++
  (if zscore_anomaly gasWin g then [⟨.GAS_ANOMALY, .HIGH, .gasDeviates⟩] else [])

/-- Query of lines 130-137: rows of the device ordered by timestamp
descending, limited to 10; newest first over the insertion-ordered table. -/
def recentRows (tbl : List SensorRow) (d : String) : List SensorRow :=
  ((tbl.filter (fun row => row.device_id == d)).reverse).take 10

/-- Percentage deviation abs(value - avg) / avg * 100 (lines 146-147). -/
def devPct (value avg : ℚ) : ℚ := |value - avg| / avg * 100

/-- Rolling-deviation rule (lines 139-161 of main.py).  With at least 5
recent rows the source divides by each average unconditionally; a zero
average raises ZeroDivisionError, embedded as the error case. -/
def rollingEvents (rows : List SensorRow) (t g : ℚ) : Except Unit (List AlertEvent) :=
  if rows.length ≥ 5 then
    let avg_temp := listMean (rows.map (fun row => row.temperature))
    let avg_gas := listMean (rows.map (fun row => row.gas_level))
    if avg_temp = 0 ∨ avg_gas = 0 then .error ()
    else
      let temp_dev := devPct t avg_temp
      let gas_dev := devPct g avg_gas
      .ok
        ((if temp_dev > 25 then [⟨.TEMP_ROLLING_ANOMALY, .MEDIUM, .tempRollingPct (fmt1 temp_dev)⟩] else []) ++
         (if gas_dev > 30 then [⟨.GAS_ROLLING_ANOMALY, .HIGH, .gasRollingPct (fmt1 gas_dev)⟩] else []))
  else .ok []

/-- Auto-resolve UPDATE of main.py (lines 179-205): every active alert of the
device whose type lies in the group becomes inactive with resolved_at set. -/
def resolveGroup (alerts : List AlertRow) (d : String) (group : List AlertType) (now : ℕ) : List AlertRow :=
  alerts.map fun a =>
    if a.device_id = d ∧ a.alert_type ∈ group ∧ a.is_active = true then
      { a with is_active := false, resolved_at := some now }
    else a

/-- Outcome of one POST /sensor-data request. -/
inductive StepResult
  | ok
  | insertError
  | validationError
  | fault
  deriving DecidableEq, Repr

/-- Pydantic validation of SensorData (lines 50-53 of main.py). -/
def validReading (r : Reading) : Bool :=
  decide (3 ≤ r.device_id.length ∧ r.device_id.length ≤ 50 ∧
    -40 ≤ r.temperature ∧ r.temperature ≤ 150 ∧
    0 ≤ r.gas_level ∧ r.gas_level ≤ 1000)

/-- Group resolved when gas_level ≤ 300 (line 183 of main.py). -/
def gasResolveGroup : List AlertType := [.HIGH_GAS, .GAS_ANOMALY]

/-- Group resolved when 0 ≤ temperature ≤ 60 (line 198 of main.py). -/
def tempResolveGroup : List AlertType := [.HIGH_TEMP, .LOW_TEMP, .TEMP_ANOMALY]

/-- Reading insert (lines 82-89 of main.py) together with the two window
appends that follow it (lines 96-97): the new row goes to the end of the
table, both windows of the device observe the new values. -/
def insertReading (st : EngineState) (r : Reading) (now : ℕ) : EngineState :=
  { st with
    sensor_data := st.sensor_data ++ [⟨r.device_id, r.temperature, r.gas_level, now⟩]
    temp_history := fun d =>
      if d = r.device_id then observe (st.temp_history d) r.temperature else st.temp_history d
    gas_history := fun d =>
      if d = r.device_id then observe (st.gas_history d) r.gas_level else st.gas_history d }

/-- Alert-insert loop of main.py (lines 164-175): one new active row per
candidate event, created_at set to the clock, resolved_at empty. -/
def openAlerts (st : EngineState) (d : String) (events : List AlertEvent) (now : ℕ) : EngineState :=
  { st with
    alerts := st.alerts ++ events.map
      (fun e => ⟨d, e.alert_type, e.severity, e.message, true, now, none⟩) }

/-- Auto-resolve section of main.py (lines 178-205): the gas group when
gas_level ≤ 300, then the temperature group when 0 ≤ temperature ≤ 60. -/
def autoResolve (st : EngineState) (r : Reading) (now : ℕ) : EngineState :=
  let afterGas :=
    if r.gas_level ≤ 300 then resolveGroup st.alerts r.device_id gasResolveGroup now else st.alerts
  let afterTemp :=
    if 0 ≤ r.temperature ∧ r.temperature ≤ 60 then resolveGroup afterGas r.device_id tempResolveGroup now
    else afterGas
  { st with alerts := afterTemp }

/-- Candidate events of the rule families evaluated before the rolling rule,
in handler order: gas threshold, temperature threshold, temperature z-score,
gas z-score, the z-scores against the already-updated windows. -/
def baseEvents (st1 : EngineState) (r : Reading) : List AlertEvent :=
  thresholdEvents r.gas_level r.temperature ++
    zscoreEvents (st1.temp_history r.device_id) (st1.gas_history r.device_id) r.temperature r.gas_level

/-- Handler body of insert_sensor_data after the reading insert succeeded
(lines 95-211 of main.py), in source order: window appends, threshold rules,
z-score rules over the updated windows, recent-rows query over the table that
already holds the new reading, rolling rule (possible ZeroDivisionError
fault), alert inserts, the two auto-resolve updates. -/
def processReading (st : EngineState) (r : Reading) (now : ℕ) : EngineState × StepResult :=
  match rollingEvents (recentRows (insertReading st r now).sensor_data r.device_id) r.temperature r.gas_level with
  | .error _ => (insertReading st r now, .fault)
  | .ok rollEvents =>
    (autoResolve (openAlerts (insertReading st r now) r.device_id
      (baseEvents (insertReading st r now) r ++ rollEvents) now) r now, .ok)

/-- One POST /sensor-data request: pydantic validation first, then the
guarded reading insert (driven by the storageOk oracle; on failure the
handler returns the error payload before any window or alert mutation), then
the handler body. -/
def ingest (st : EngineState) (r : Reading) (now : ℕ) (storageOk : Bool) : EngineState × StepResult :=
  if validReading r then
    if storageOk then processReading st r now
    else (st, .insertError)
  else (st, .validationError)

/-- Run of a request stream: clock k supplies the timestamp of step k. -/
def runFrom (st : EngineState) (inputs : List (Reading × Bool)) (clock : ℕ → ℕ) (k : ℕ) : EngineState :=
  match inputs with
  | [] => st
  | (r, ok) :: rest => runFrom (ingest st r (clock k) ok).1 rest clock (k + 1)

/-- States whose every window respects the deque capacity. -/
def WindowsBounded (st : EngineState) : Prop :=
  ∀ d, (st.temp_history d).length ≤ WINDOW_SIZE ∧
    (st.gas_history d).length ≤ WINDOW_SIZE

/-- Reading used in several witnesses: in bounds, gas above 600. -/
def r700 : Reading := ⟨"dev", 20, 700⟩

/-- Reading with too short a device id (2 characters). -/
def rBadId : Reading := ⟨"ab", 20, 100⟩

/-- Reading with both metrics at zero: valid input (0 is inside both declared
ranges) whose accumulation drives the rolling averages to zero. -/
def rZero : Reading := ⟨"dev", 0, 0⟩

/-- Engine state after four all-zero readings from device dev. -/
def st4C2 : EngineState := runFrom initState (List.replicate 4 (rZero, true)) (fun n => n) 0

/-- Nominal reading used to trigger both auto-resolve groups. -/
def rCalm : Reading := ⟨"dev", 20, 100⟩

/-- Engine state holding one active (dev, HIGH_GAS) alert, reached by one
high-gas ingestion from the fresh engine. -/
def stG : EngineState := (ingest initState r700 0 true).1

/-- Reading with temperature 0 and gas above 600: each ingestion of it opens
a HIGH_GAS alert, resolves nothing, and drives the rolling temperature mean
towards zero. -/
def rSpike : Reading := ⟨"dev", 0, 700⟩

/-- Engine state after four rSpike readings: four active (dev, HIGH_GAS)
rows, four stored rows of temperature 0. -/
def stC4 : EngineState := runFrom initState (List.replicate 4 (rSpike, true)) (fun n => n) 0

/-- Five stored rows of device dev whose temperature mean is 120. -/
def rows5 : List SensorRow :=
  [⟨"dev", 100, 500, 0⟩, ⟨"dev", 100, 500, 1⟩, ⟨"dev", 100, 500, 2⟩,
   ⟨"dev", 100, 500, 3⟩, ⟨"dev", 200, 500, 4⟩]

/-- Hand-built active rolling-anomaly alert row used as the C10 witness. -/
def rollRow : AlertRow := ⟨"dev", .TEMP_ROLLING_ANOMALY, .MEDIUM, .tempRollingPct 50, true, 0, none⟩

/-- State holding one active rolling-anomaly alert. -/
def stRoll : EngineState :=
  { sensor_data := []
    alerts := [rollRow]
    temp_history := fun _ => []
    gas_history := fun _ => [] }

/-- Projection of a stored reading row forgetting the timestamp column. -/
def sensorView (row : SensorRow) : String × ℚ × ℚ :=
  (row.device_id, row.temperature, row.gas_level)

/-- Projection of an alert row onto the fields named by the replay claim:
device_id, alert_type, severity, message, is_active — everything except the
wall-clock columns created_at and resolved_at. -/
def alertView (a : AlertRow) : String × AlertType × Severity × Msg × Bool :=
  (a.device_id, a.alert_type, a.severity, a.message, a.is_active)

/-- Two engine states that agree up to the wall-clock columns. -/
def SimState (s1 s2 : EngineState) : Prop :=
  s1.sensor_data.map sensorView = s2.sensor_data.map sensorView ∧
  s1.alerts.map alertView = s2.alerts.map alertView ∧
  s1.temp_history = s2.temp_history ∧
  s1.gas_history = s2.gas_history

/-! Helper lemmas shared across claims. -/

lemma zscore_anomaly_iff (vs : List ℚ) (c : ℚ) :
    zscore_anomaly vs c = true ↔
      10 ≤ vs.length ∧ sampleVariance vs ≠ 0 ∧
        (c - listMean vs) ^ 2 > 9 * sampleVariance vs := by
  unfold zscore_anomaly
  split_ifs with h1 h2
  · simp only [Bool.false_eq_true, false_iff]
    rintro ⟨h, -, -⟩
    omega
  · simp only [Bool.false_eq_true, false_iff]
    rintro ⟨-, h, -⟩
    exact h h2
  · simp only [decide_eq_true_eq]
    constructor
    · intro hp
      exact ⟨by omega, h2, hp⟩
    · rintro ⟨-, -, hp⟩
      exact hp

/-- C3: the z-score rule yields no verdict for windows of fewer than 10
samples or zero Bessel-corrected sample variance, and otherwise flags an
anomaly exactly when the squared distance of the current value from the
window mean exceeds (3 stdev)^2 = 9 variance (the window already contains
the current value), emitting (TEMP_ANOMALY, MEDIUM) for temperature and
(GAS_ANOMALY, HIGH) for gas. -/
theorem C3_zscore_rule (tw gw : List ℚ) (t g : ℚ) :
    zscoreEvents tw gw t g =
      (if 10 ≤ tw.length ∧ sampleVariance tw ≠ 0 ∧
          (t - listMean tw) ^ 2 > 9 * sampleVariance tw
        then [⟨.TEMP_ANOMALY, .MEDIUM, .tempDeviates⟩] else []) ++
      (if 10 ≤ gw.length ∧ sampleVariance gw ≠ 0 ∧
          (g - listMean gw) ^ 2 > 9 * sampleVariance gw
        then [⟨.GAS_ANOMALY, .HIGH, .gasDeviates⟩] else []) := by
  unfold zscoreEvents
  simp only [zscore_anomaly_iff]

/-- C5: threshold rules emit exactly (HIGH_GAS, HIGH) for gas above 600,
(HIGH_GAS, MEDIUM) for gas in (300, 600], nothing for gas at or below 300;
(HIGH_TEMP, HIGH) above 80, (HIGH_TEMP, MEDIUM) in (60, 80], (LOW_TEMP, LOW)
below 0, nothing on [0, 60]; at most one temperature event per reading; the
two families combine by concatenation, each depending only on its metric. -/
theorem C5_threshold_rules (g t : ℚ) :
    ((⟨.HIGH_GAS, .HIGH, .dangerousGas⟩ : AlertEvent) ∈ thresholdEvents g t ↔ 600 < g) ∧
    ((⟨.HIGH_GAS, .MEDIUM, .elevatedGas⟩ : AlertEvent) ∈ thresholdEvents g t ↔ 300 < g ∧ g ≤ 600) ∧
    (gasThresholdEvents g = [] ↔ g ≤ 300) ∧
    ((⟨.HIGH_TEMP, .HIGH, .criticalTemp⟩ : AlertEvent) ∈ thresholdEvents g t ↔ 80 < t) ∧
    ((⟨.HIGH_TEMP, .MEDIUM, .highTemp⟩ : AlertEvent) ∈ thresholdEvents g t ↔ 60 < t ∧ t ≤ 80) ∧
    ((⟨.LOW_TEMP, .LOW, .lowTemp⟩ : AlertEvent) ∈ thresholdEvents g t ↔ t < 0) ∧
    (tempThresholdEvents t = [] ↔ 0 ≤ t ∧ t ≤ 60) ∧
    (tempThresholdEvents t).length ≤ 1 ∧
    thresholdEvents g t = gasThresholdEvents g ++ tempThresholdEvents t := by
  refine ⟨?_, ?_, ?_, ?_, ?_, ?_, ?_, ?_, rfl⟩
  · simp only [thresholdEvents, List.mem_append, gasThresholdEvents, tempThresholdEvents]
    split_ifs <;> simp_all
  · simp only [thresholdEvents, List.mem_append, gasThresholdEvents, tempThresholdEvents]
    split_ifs <;> simp_all
  · simp only [gasThresholdEvents]
    split_ifs <;> simp_all <;> linarith
  · simp only [thresholdEvents, List.mem_append, gasThresholdEvents, tempThresholdEvents]
    split_ifs <;> simp_all
  · simp only [thresholdEvents, List.mem_append, gasThresholdEvents, tempThresholdEvents]
    split_ifs <;> simp_all
  · simp only [thresholdEvents, List.mem_append, gasThresholdEvents, tempThresholdEvents]
    split_ifs <;> simp_all <;> linarith
  · simp only [tempThresholdEvents]
    split_ifs <;> simp_all
    all_goals intro; linarith
  · simp only [tempThresholdEvents]
    split_ifs <;> simp

lemma observe_length_le (w : List ℚ) (v : ℚ) :
    (observe w v).length ≤ WINDOW_SIZE := by
  unfold observe
  simp only [List.length_drop]
  omega

lemma processReading_of_error (st : EngineState) (r : Reading) (now : ℕ)
    (h : rollingEvents (recentRows (insertReading st r now).sensor_data r.device_id)
      r.temperature r.gas_level = .error ()) :
    processReading st r now = (insertReading st r now, .fault) := by
  unfold processReading
  rw [h]

lemma processReading_of_ok (st : EngineState) (r : Reading) (now : ℕ)
    (evs : List AlertEvent)
    (h : rollingEvents (recentRows (insertReading st r now).sensor_data r.device_id)
      r.temperature r.gas_level = .ok evs) :
    processReading st r now =
      (autoResolve (openAlerts (insertReading st r now) r.device_id
        (baseEvents (insertReading st r now) r ++ evs) now) r now, .ok) := by
  unfold processReading
  rw [h]

lemma insertReading_windows (st : EngineState) (r : Reading) (now : ℕ)
    (h : WindowsBounded st) : WindowsBounded (insertReading st r now) := by
  intro d
  constructor <;> simp only [insertReading] <;> split_ifs <;>
    first
      | exact observe_length_le _ _
      | exact (h d).1
      | exact (h d).2

lemma windowsBounded_processReading (st : EngineState) (r : Reading) (now : ℕ)
    (h : WindowsBounded st) : WindowsBounded (processReading st r now).1 := by
  cases hr : rollingEvents
      (recentRows (insertReading st r now).sensor_data r.device_id)
      r.temperature r.gas_level with
  | error e =>
    cases e
    rw [processReading_of_error st r now hr]
    exact insertReading_windows st r now h
  | ok evs =>
    rw [processReading_of_ok st r now evs hr]
    exact insertReading_windows st r now h

lemma windowsBounded_ingest (st : EngineState) (r : Reading) (now : ℕ) (ok : Bool)
    (h : WindowsBounded st) : WindowsBounded (ingest st r now ok).1 := by
  unfold ingest
  split_ifs
  · exact windowsBounded_processReading st r now h
  · exact h
  · exact h

lemma windowsBounded_runFrom (inputs : List (Reading × Bool)) :
    ∀ (st : EngineState) (clock : ℕ → ℕ) (k : ℕ), WindowsBounded st →
      WindowsBounded (runFrom st inputs clock k) := by
  induction inputs with
  | nil => intro st clock k h; exact h
  | cons p rest ih =>
    intro st clock k h
    exact ih _ clock (k + 1) (windowsBounded_ingest st p.1 (clock k) p.2 h)

/-- C7: along any run from the fresh engine no per-device window ever holds
more than WINDOW_SIZE = 20 values, and observing into a full window of 20
drops exactly the oldest value while appending the new one; below capacity
the window just grows on the right. -/
theorem C7_window_capacity (inputs : List (Reading × Bool)) (clock : ℕ → ℕ)
    (k : ℕ) (d : String) (w : List ℚ) (v : ℚ) :
    ((runFrom initState inputs clock k).temp_history d).length ≤ WINDOW_SIZE ∧
    ((runFrom initState inputs clock k).gas_history d).length ≤ WINDOW_SIZE ∧
    (w.length = WINDOW_SIZE → observe w v = w.tail ++ [v]) ∧
    (w.length < WINDOW_SIZE → observe w v = w ++ [v]) := by
  have hrun := windowsBounded_runFrom inputs initState clock k
    (fun _ => by constructor <;> simp [initState, WINDOW_SIZE])
  refine ⟨(hrun d).1, (hrun d).2, ?_, ?_⟩
  · intro hw
    cases w with
    | nil => simp [WINDOW_SIZE] at hw
    | cons a as =>
      unfold observe
      have h1 : (a :: as ++ [v]).length - WINDOW_SIZE = 1 := by
        simp [WINDOW_SIZE] at hw ⊢
        omega
      rw [h1]
      simp
  · intro hw
    unfold observe
    have h0 : (w ++ [v]).length - WINDOW_SIZE = 0 := by
      simp [WINDOW_SIZE] at hw ⊢
      omega
    rw [h0]
    simp

/-- Witness for C7 at concrete inputs. -/
theorem C7_window_capacity_witness :
    observe (List.replicate 20 (0 : ℚ)) 1 = (List.replicate 20 (0 : ℚ)).tail ++ [1] ∧
    observe [] (5 : ℚ) = [] ++ [5] :=
  ⟨(C7_window_capacity [] id 0 "dev" (List.replicate 20 (0 : ℚ)) 1).2.2.1 (by decide),
   (C7_window_capacity [] id 0 "dev" [] 5).2.2.2 (by decide)⟩

/-- C8: a reading that fails pydantic validation is rejected with no state
mutation, a reading whose storage insert fails aborts the whole ingestion
with an error and no state mutation, and validity is exactly the declared
bounds: device_id length 3 to 50, temperature in [-40, 150], gas_level in
[0, 1000]. -/
theorem C8_validation_and_storage_abort (st : EngineState) (r : Reading)
    (now : ℕ) (ok : Bool) :
    (validReading r = false → ingest st r now ok = (st, .validationError)) ∧
    (validReading r = true → ingest st r now false = (st, .insertError)) ∧
    (validReading r = true ↔
      3 ≤ r.device_id.length ∧ r.device_id.length ≤ 50 ∧
      -40 ≤ r.temperature ∧ r.temperature ≤ 150 ∧
      0 ≤ r.gas_level ∧ r.gas_level ≤ 1000) := by
  refine ⟨?_, ?_, ?_⟩
  · intro h
    simp [ingest, h]
  · intro h
    simp [ingest, h]
  · simp [validReading]

/-- Witness for C8: the invalid reading is rejected unchanged, and a valid
reading with failing storage aborts unchanged. -/
theorem C8_validation_and_storage_abort_witness :
    ingest initState rBadId 0 true = (initState, .validationError) ∧
    ingest initState r700 0 false = (initState, .insertError) :=
  ⟨(C8_validation_and_storage_abort initState rBadId 0 true).1 (by decide),
   (C8_validation_and_storage_abort initState r700 0 false).2.1 (by decide)⟩

/-! Alert-ledger lemmas about the auto-resolve UPDATE. -/

lemma mem_resolveGroup_of_not_mem_group {a : AlertRow} {l : List AlertRow}
    {d : String} {group : List AlertType} {now : ℕ}
    (ha : a ∈ l) (hty : a.alert_type ∉ group) :
    a ∈ resolveGroup l d group now := by
  unfold resolveGroup
  refine List.mem_map.mpr ⟨a, ha, ?_⟩
  rw [if_neg (by rintro ⟨-, hmem, -⟩; exact hty hmem)]

lemma resolveGroup_inactive {a : AlertRow} {l : List AlertRow}
    {d : String} {group : List AlertType} {now : ℕ}
    (ha : a ∈ resolveGroup l d group now)
    (hd : a.device_id = d) (hty : a.alert_type ∈ group) :
    a.is_active = false := by
  obtain ⟨b, -, hba⟩ := List.mem_map.mp ha
  by_cases hc : b.device_id = d ∧ b.alert_type ∈ group ∧ b.is_active = true
  · rw [if_pos hc] at hba
    rw [← hba]
  · rw [if_neg hc] at hba
    subst hba
    cases hb : b.is_active
    · rfl
    · exact absurd ⟨hd, hty, hb⟩ hc

lemma mem_of_mem_resolveGroup_active {a : AlertRow} {l : List AlertRow}
    {d : String} {group : List AlertType} {now : ℕ}
    (ha : a ∈ resolveGroup l d group now) (hact : a.is_active = true) :
    a ∈ l := by
  obtain ⟨b, hb, hba⟩ := List.mem_map.mp ha
  by_cases hc : b.device_id = d ∧ b.alert_type ∈ group ∧ b.is_active = true
  · rw [if_pos hc] at hba
    rw [← hba] at hact
    simp at hact
  · rw [if_neg hc] at hba
    subst hba
    exact hb

lemma mem_resolveGroup_cases {a : AlertRow} {l : List AlertRow}
    {d : String} {group : List AlertType} {now : ℕ}
    (ha : a ∈ resolveGroup l d group now) :
    a ∈ l ∨ (a.is_active = false ∧ a.resolved_at = some now) := by
  obtain ⟨b, hb, hba⟩ := List.mem_map.mp ha
  by_cases hc : b.device_id = d ∧ b.alert_type ∈ group ∧ b.is_active = true
  · rw [if_pos hc] at hba
    right
    rw [← hba]
    exact ⟨rfl, rfl⟩
  · rw [if_neg hc] at hba
    subst hba
    exact Or.inl hb

lemma rolling_mem_ingest {a : AlertRow} (st : EngineState) (r : Reading)
    (now : ℕ) (ok : Bool) (ha : a ∈ st.alerts)
    (hty : a.alert_type = .TEMP_ROLLING_ANOMALY ∨ a.alert_type = .GAS_ROLLING_ANOMALY) :
    a ∈ (ingest st r now ok).1.alerts := by
  have hgas : a.alert_type ∉ gasResolveGroup := by
    rcases hty with h | h <;> simp [gasResolveGroup, h]
  have htemp : a.alert_type ∉ tempResolveGroup := by
    rcases hty with h | h <;> simp [tempResolveGroup, h]
  unfold ingest
  split_ifs
  · cases hr : rollingEvents
        (recentRows (insertReading st r now).sensor_data r.device_id)
        r.temperature r.gas_level with
    | error e =>
      cases e
      rw [processReading_of_error st r now hr]
      exact ha
    | ok evs =>
      rw [processReading_of_ok st r now evs hr]
      show a ∈ (autoResolve _ r now).alerts
      unfold autoResolve openAlerts
      simp only
      have h1 : a ∈ (insertReading st r now).alerts ++
          ((baseEvents (insertReading st r now) r ++ evs).map
            fun e => ⟨r.device_id, e.alert_type, e.severity, e.message, true, now, none⟩) :=
        List.mem_append_left _ ha
      split_ifs with hg ht <;>
        first
          | exact mem_resolveGroup_of_not_mem_group
              (mem_resolveGroup_of_not_mem_group h1 hgas) htemp
          | exact mem_resolveGroup_of_not_mem_group h1 hgas
          | exact mem_resolveGroup_of_not_mem_group h1 htemp
          | exact h1
  · exact ha
  · exact ha

/-- C10: the auto-resolve groups contain neither TEMP_ROLLING_ANOMALY nor
GAS_ROLLING_ANOMALY, so a rolling-anomaly alert row survives any run of
further ingestions completely unchanged: once active it stays active. -/
theorem C10_rolling_alerts_never_resolved (st : EngineState)
    (inputs : List (Reading × Bool)) (clock : ℕ → ℕ) (k : ℕ) (a : AlertRow)
    (ha : a ∈ st.alerts)
    (hty : a.alert_type = .TEMP_ROLLING_ANOMALY ∨ a.alert_type = .GAS_ROLLING_ANOMALY) :
    a ∈ (runFrom st inputs clock k).alerts := by
  induction inputs generalizing st k with
  | nil => exact ha
  | cons p rest ih =>
    exact ih (ingest st p.1 (clock k) p.2).1 (k + 1)
      (rolling_mem_ingest st p.1 (clock k) p.2 ha hty)

/-- Witness for C10: the active TEMP_ROLLING_ANOMALY row survives an
ingestion of a fully nominal reading untouched. -/
theorem C10_rolling_alerts_never_resolved_witness :
    rollRow ∈ (runFrom stRoll [(⟨"dev", 20, 100⟩, true)] (fun n => n) 0).alerts :=
  C10_rolling_alerts_never_resolved stRoll [(⟨"dev", 20, 100⟩, true)] (fun n => n) 0
    rollRow (List.mem_cons_self rollRow []) (Or.inl rfl)

/-- C1: the claim that a rule firing while an alert of the same type is
already active does not create a second active row fails on the code: the
handler inserts one new active row per triggering reading with no dedup
check, so two consecutive high-gas readings leave two active
(dev, HIGH_GAS) rows.  The spec itself records the unconditional insert of
the source as a bug (design notes on dedup), so the code, not the claim, is
wrong. -/
theorem C1_duplicate_active_rows :
    (((runFrom initState [(r700, true), (r700, true)] (fun n => n) 0).alerts).filter
      (fun a => a.device_id == "dev" && a.alert_type == AlertType.HIGH_GAS && a.is_active)).length = 2 := by
  decide

/-- C2: the claim that a zero rolling average short-circuits to no verdict
fails on the code: lines 146-147 of main.py divide by the averages with no
guard, so the fifth all-zero reading of a device ends the request in the
ZeroDivisionError fault outcome instead of skipping the check.  The spec
design notes call the missing guard a required bounds check, so the code,
not the claim, is wrong. -/
theorem C2_rolling_divzero_fault :
    (ingest st4C2 rZero 4 true).2 = .fault := by
  have hv : validReading rZero = true := by decide
  have hrec : recentRows (insertReading st4C2 rZero 4).sensor_data rZero.device_id =
      [⟨"dev", 0, 0, 4⟩, ⟨"dev", 0, 0, 3⟩, ⟨"dev", 0, 0, 2⟩,
       ⟨"dev", 0, 0, 1⟩, ⟨"dev", 0, 0, 0⟩] := by
    decide
  have herr : rollingEvents
      (recentRows (insertReading st4C2 rZero 4).sensor_data rZero.device_id)
      rZero.temperature rZero.gas_level = .error () := by
    rw [hrec]
    show rollingEvents _ 0 0 = .error ()
    norm_num [rollingEvents, listMean]
  unfold ingest
  rw [if_pos hv, if_pos rfl, processReading_of_error st4C2 rZero 4 herr]

lemma autoResolve_temp_inactive (st : EngineState) (r : Reading) (now : ℕ)
    (h0 : 0 ≤ r.temperature) (h60 : r.temperature ≤ 60) :
    ∀ a ∈ (autoResolve st r now).alerts, a.device_id = r.device_id →
      a.alert_type ∈ tempResolveGroup → a.is_active = false := by
  intro a ha hd hmem
  unfold autoResolve at ha
  simp only at ha
  rw [if_pos ⟨h0, h60⟩] at ha
  exact resolveGroup_inactive ha hd hmem

lemma autoResolve_gas_inactive (st : EngineState) (r : Reading) (now : ℕ)
    (hg : r.gas_level ≤ 300) :
    ∀ a ∈ (autoResolve st r now).alerts, a.device_id = r.device_id →
      a.alert_type ∈ gasResolveGroup → a.is_active = false := by
  intro a ha hd hmem
  unfold autoResolve at ha
  simp only at ha
  rw [if_pos hg] at ha
  cases hact : a.is_active
  · rfl
  · exfalso
    split_ifs at ha with ht
    · have h1 := mem_of_mem_resolveGroup_active ha hact
      have h2 := resolveGroup_inactive h1 hd hmem
      rw [hact] at h2
      simp at h2
    · have h2 := resolveGroup_inactive ha hd hmem
      rw [hact] at h2
      simp at h2

lemma autoResolve_inactive_cases (st : EngineState) (r : Reading) (now : ℕ) :
    ∀ a ∈ (autoResolve st r now).alerts,
      a ∈ st.alerts ∨ (a.is_active = false ∧ a.resolved_at = some now) := by
  intro a ha
  unfold autoResolve at ha
  simp only at ha
  split_ifs at ha with h1 h2 h3
  · rcases mem_resolveGroup_cases ha with h | h
    · rcases mem_resolveGroup_cases h with h4 | h4
      · exact Or.inl h4
      · exact Or.inr h4
    · exact Or.inr h
  · rcases mem_resolveGroup_cases ha with h | h
    · exact Or.inl h
    · exact Or.inr h
  · rcases mem_resolveGroup_cases ha with h | h
    · exact Or.inl h
    · exact Or.inr h
  · exact Or.inl ha

lemma openAlerts_mem (st : EngineState) (d : String) (events : List AlertEvent)
    (now : ℕ) :
    ∀ a ∈ (openAlerts st d events now).alerts, a ∈ st.alerts ∨ a.is_active = true := by
  intro a ha
  unfold openAlerts at ha
  simp only at ha
  rcases List.mem_append.mp ha with h | h
  · exact Or.inl h
  · right
    obtain ⟨e, -, he⟩ := List.mem_map.mp h
    rw [← he]

/-- Positive side of the auto-resolve analysis: on an ingestion that
completes (result ok), gas_level ≤ 300 leaves no HIGH_GAS or GAS_ANOMALY
alert of the device active, temperature in [0, 60] leaves no HIGH_TEMP,
LOW_TEMP or TEMP_ANOMALY alert of the device active, and every row left
inactive that was not already a row of the previous ledger carries
resolved_at = now, whatever rules fired this cycle.  The completion
hypothesis is load-bearing: an ingestion that dies in the rolling-rule
fault skips the auto-resolve section (see the fault theorem below). -/
theorem autoResolve_groups_of_ok (st : EngineState) (r : Reading) (now : ℕ)
    (hok : (ingest st r now true).2 = .ok) :
    (r.gas_level ≤ 300 →
      ((ingest st r now true).1.alerts.filter fun a =>
        a.device_id == r.device_id &&
        (a.alert_type == AlertType.HIGH_GAS || a.alert_type == AlertType.GAS_ANOMALY) &&
        a.is_active) = []) ∧
    (0 ≤ r.temperature ∧ r.temperature ≤ 60 →
      ((ingest st r now true).1.alerts.filter fun a =>
        a.device_id == r.device_id &&
        (a.alert_type == AlertType.HIGH_TEMP || a.alert_type == AlertType.LOW_TEMP ||
          a.alert_type == AlertType.TEMP_ANOMALY) &&
        a.is_active) = []) ∧
    ((ingest st r now true).1.alerts.filter fun a =>
      !a.is_active && !(st.alerts.contains a) && !(a.resolved_at == some now)) = [] := by
  have hv : validReading r = true := by
    cases hvr : validReading r
    · simp [ingest, hvr] at hok
    · rfl
  unfold ingest at hok ⊢
  rw [if_pos hv, if_pos rfl] at hok ⊢
  cases hr : rollingEvents
      (recentRows (insertReading st r now).sensor_data r.device_id)
      r.temperature r.gas_level with
  | error e =>
    cases e
    rw [processReading_of_error st r now hr] at hok
    simp at hok
  | ok evs =>
    rw [processReading_of_ok st r now evs hr]
    refine ⟨?_, ?_, ?_⟩
    · intro hg
      rw [List.filter_eq_nil_iff]
      intro a ha hp
      simp only [Bool.and_eq_true, beq_iff_eq, Bool.or_eq_true] at hp
      obtain ⟨⟨hd, hty⟩, hact⟩ := hp
      have := autoResolve_gas_inactive _ r now hg a ha hd
        (by simp only [gasResolveGroup, List.mem_cons, List.not_mem_nil, or_false]; tauto)
      rw [this] at hact
      cases hact
    · rintro ⟨h0, h60⟩
      rw [List.filter_eq_nil_iff]
      intro a ha hp
      simp only [Bool.and_eq_true, beq_iff_eq, Bool.or_eq_true] at hp
      obtain ⟨⟨hd, hty⟩, hact⟩ := hp
      have := autoResolve_temp_inactive _ r now h0 h60 a ha hd
        (by simp only [tempResolveGroup, List.mem_cons, List.not_mem_nil, or_false]; tauto)
      rw [this] at hact
      cases hact
    · rw [List.filter_eq_nil_iff]
      intro a ha hp
      simp only [Bool.and_eq_true, Bool.not_eq_true', beq_eq_false_iff_ne,
        Bool.not_eq_true] at hp
      obtain ⟨⟨hact, hcont⟩, hres⟩ := hp
      rcases autoResolve_inactive_cases _ r now a ha with h | h
      · rcases openAlerts_mem _ r.device_id _ now a h with h2 | h2
        · exact absurd (List.elem_iff.mpr h2) (by simpa using hcont)
        · rw [h2] at hact
          cases hact
      · exact absurd (by simpa using h.2) (by simpa using hres)

/-- Instance of the positive auto-resolve statement: one high-gas ingestion
opens an active (dev, HIGH_GAS) row; a following nominal reading (gas 100,
temperature 20) completes, leaves no active gas-group or temperature-group
alert for the device, and every newly inactive row carries resolved_at of
that step. -/
theorem autoResolve_groups_of_ok_witness :
    ((ingest stG rCalm 1 true).1.alerts.filter fun a =>
      a.device_id == rCalm.device_id &&
      (a.alert_type == AlertType.HIGH_GAS || a.alert_type == AlertType.GAS_ANOMALY) &&
      a.is_active) = [] ∧
    ((ingest stG rCalm 1 true).1.alerts.filter fun a =>
      a.device_id == rCalm.device_id &&
      (a.alert_type == AlertType.HIGH_TEMP || a.alert_type == AlertType.LOW_TEMP ||
        a.alert_type == AlertType.TEMP_ANOMALY) &&
      a.is_active) = [] ∧
    ((ingest stG rCalm 1 true).1.alerts.filter fun a =>
      !a.is_active && !(stG.alerts.contains a) && !(a.resolved_at == some 1)) = [] :=
  ⟨(autoResolve_groups_of_ok stG rCalm 1 (by decide)).1 (by decide),
   (autoResolve_groups_of_ok stG rCalm 1 (by decide)).2.1 (by decide),
   (autoResolve_groups_of_ok stG rCalm 1 (by decide)).2.2⟩

/-- C4: the claim that the two resolution triggers run on every ingestion
fails on the code, through the unguarded rolling division of line 146: after
four (dev, temperature 0, gas 700) readings the ledger holds four active
(dev, HIGH_GAS) rows; the fifth reading (dev, 0, 0) has gas_level ≤ 300, yet
the request dies in the ZeroDivisionError fault (the rolling temperature
mean is 0) before the auto-resolve section of lines 178-205 runs, and all
four rows are still active afterwards.  The auto-resolve code itself is
right (see the positive theorem above); the failure is exactly the missing
guard recorded for C2, so the code, not the claim, is wrong. -/
theorem C4_unresolved_after_fault :
    rZero.gas_level ≤ 300 ∧
    (ingest stC4 rZero 4 true).2 = .fault ∧
    (((ingest stC4 rZero 4 true).1.alerts.filter fun a =>
      a.device_id == rZero.device_id &&
      (a.alert_type == AlertType.HIGH_GAS || a.alert_type == AlertType.GAS_ANOMALY) &&
      a.is_active).length = 4) := by
  have hv : validReading rZero = true := by decide
  have hrec : recentRows (insertReading stC4 rZero 4).sensor_data rZero.device_id =
      [⟨"dev", 0, 0, 4⟩, ⟨"dev", 0, 700, 3⟩, ⟨"dev", 0, 700, 2⟩,
       ⟨"dev", 0, 700, 1⟩, ⟨"dev", 0, 700, 0⟩] := by
    decide
  have herr : rollingEvents
      (recentRows (insertReading stC4 rZero 4).sensor_data rZero.device_id)
      rZero.temperature rZero.gas_level = .error () := by
    rw [hrec]
    show rollingEvents _ 0 0 = .error ()
    norm_num [rollingEvents, listMean]
  refine ⟨by decide, ?_, ?_⟩
  · unfold ingest
    rw [if_pos hv, if_pos rfl, processReading_of_error stC4 rZero 4 herr]
  · unfold ingest
    rw [if_pos hv, if_pos rfl, processReading_of_error stC4 rZero 4 herr]
    decide

/-- C6: the rolling rule reads the most recent 10 stored rows of the device,
newest first, the just-inserted reading at the head; with fewer than 5 rows
it emits nothing; with at least 5 rows and nonzero means it emits
(TEMP_ROLLING_ANOMALY, MEDIUM) exactly when the temperature deviation
percentage exceeds 25 and (GAS_ROLLING_ANOMALY, HIGH) exactly when the gas
deviation percentage exceeds 30, each message carrying the percentage
rounded to one decimal place. -/
theorem C6_rolling_deviation (tbl : List SensorRow) (row : SensorRow) (d : String)
    (rows : List SensorRow) (t g : ℚ) :
    (recentRows (tbl ++ [row]) row.device_id).head? = some row ∧
    (recentRows tbl d).length ≤ 10 ∧
    (rows.length < 5 → rollingEvents rows t g = .ok []) ∧
    (5 ≤ rows.length →
      listMean (rows.map fun x => x.temperature) ≠ 0 →
      listMean (rows.map fun x => x.gas_level) ≠ 0 →
      rollingEvents rows t g = .ok
        ((if devPct t (listMean (rows.map fun x => x.temperature)) > 25
          then [⟨.TEMP_ROLLING_ANOMALY, .MEDIUM,
            .tempRollingPct (fmt1 (devPct t (listMean (rows.map fun x => x.temperature))))⟩]
          else []) ++
         (if devPct g (listMean (rows.map fun x => x.gas_level)) > 30
          then [⟨.GAS_ROLLING_ANOMALY, .HIGH,
            .gasRollingPct (fmt1 (devPct g (listMean (rows.map fun x => x.gas_level))))⟩]
          else []))) := by
  refine ⟨?_, ?_, ?_, ?_⟩
  · simp [recentRows, List.filter_append]
  · exact List.length_take_le 10 _
  · intro h5
    unfold rollingEvents
    rw [if_neg (by omega)]
  · intro h5 hT hG
    simp only [rollingEvents]
    rw [if_pos h5, if_neg (not_or.mpr ⟨hT, hG⟩)]

/-- Witness for C6: the empty history emits nothing, and five rows of mean
temperature 120 with current temperature 200 (deviation 200/3 percent,
printed 66.7) emit exactly the TEMP_ROLLING_ANOMALY event. -/
theorem C6_rolling_deviation_witness :
    rollingEvents [] (7 : ℚ) 7 = .ok [] ∧
    rollingEvents rows5 200 500 =
      .ok [⟨.TEMP_ROLLING_ANOMALY, .MEDIUM, .tempRollingPct (667 / 10)⟩] := by
  constructor
  · exact (C6_rolling_deviation [] ⟨"x", 0, 0, 0⟩ "x" [] 7 7).2.2.1 (by decide)
  · have h := (C6_rolling_deviation [] ⟨"x", 0, 0, 0⟩ "x" rows5 200 500).2.2.2
      (by decide)
      (by norm_num [rows5, listMean])
      (by norm_num [rows5, listMean])
    rw [h]
    norm_num [rows5, listMean, devPct, fmt1, round_eq]

/-! Simulation argument for the replay claim: two states that agree up to
wall-clock columns step to states that agree up to wall-clock columns. -/

lemma insertReading_alerts (st : EngineState) (r : Reading) (now : ℕ) :
    (insertReading st r now).alerts = st.alerts := rfl

lemma filter_device_map_congr (d : String) :
    ∀ (l1 l2 : List SensorRow), l1.map sensorView = l2.map sensorView →
      (l1.filter fun row => row.device_id == d).map sensorView =
        (l2.filter fun row => row.device_id == d).map sensorView := by
  intro l1
  induction l1 with
  | nil =>
    intro l2 h
    cases l2 with
    | nil => rfl
    | cons b bs => simp at h
  | cons a as ih =>
    intro l2 h
    cases l2 with
    | nil => simp at h
    | cons b bs =>
      simp only [List.map_cons, List.cons.injEq] at h
      obtain ⟨hab, ht⟩ := h
      have hd : a.device_id = b.device_id := congrArg (fun v => v.1) hab
      by_cases hq : (a.device_id == d) = true
      · have e1 : (a :: as).filter (fun row => row.device_id == d) =
            a :: as.filter (fun row => row.device_id == d) :=
          List.filter_cons_of_pos hq
        have e2 : (b :: bs).filter (fun row => row.device_id == d) =
            b :: bs.filter (fun row => row.device_id == d) :=
          List.filter_cons_of_pos (by rw [← hd]; exact hq)
        rw [e1, e2]
        simp only [List.map_cons, List.cons.injEq]
        exact ⟨hab, ih bs ht⟩
      · have e1 : (a :: as).filter (fun row => row.device_id == d) =
            as.filter (fun row => row.device_id == d) :=
          List.filter_cons_of_neg (by simpa using hq)
        have e2 : (b :: bs).filter (fun row => row.device_id == d) =
            bs.filter (fun row => row.device_id == d) :=
          List.filter_cons_of_neg (by rw [← hd]; simpa using hq)
        rw [e1, e2]
        exact ih bs ht

lemma recentRows_map_congr (l1 l2 : List SensorRow) (d : String)
    (h : l1.map sensorView = l2.map sensorView) :
    (recentRows l1 d).map sensorView = (recentRows l2 d).map sensorView := by
  unfold recentRows
  rw [List.map_take, List.map_take, List.map_reverse, List.map_reverse,
    filter_device_map_congr d l1 l2 h]

lemma rollingEvents_congr (rows1 rows2 : List SensorRow) (t g : ℚ)
    (h : rows1.map sensorView = rows2.map sensorView) :
    rollingEvents rows1 t g = rollingEvents rows2 t g := by
  have hlen : rows1.length = rows2.length := by
    have := congrArg List.length h
    simpa using this
  have hT : rows1.map (fun row => row.temperature) = rows2.map (fun row => row.temperature) := by
    have := congrArg (List.map (fun v : String × ℚ × ℚ => v.2.1)) h
    rw [List.map_map, List.map_map] at this
    exact this
  have hG : rows1.map (fun row => row.gas_level) = rows2.map (fun row => row.gas_level) := by
    have := congrArg (List.map (fun v : String × ℚ × ℚ => v.2.2)) h
    rw [List.map_map, List.map_map] at this
    exact this
  unfold rollingEvents
  rw [hlen, hT, hG]

lemma resolveGroup_map_congr (d : String) (group : List AlertType) (n1 n2 : ℕ) :
    ∀ (l1 l2 : List AlertRow), l1.map alertView = l2.map alertView →
      (resolveGroup l1 d group n1).map alertView =
        (resolveGroup l2 d group n2).map alertView := by
  intro l1
  induction l1 with
  | nil =>
    intro l2 h
    cases l2 with
    | nil => rfl
    | cons b bs => simp at h
  | cons a as ih =>
    intro l2 h
    cases l2 with
    | nil => simp at h
    | cons b bs =>
      simp only [List.map_cons, List.cons.injEq] at h
      obtain ⟨hab, ht⟩ := h
      have hd : a.device_id = b.device_id := congrArg (fun v => v.1) hab
      have hty : a.alert_type = b.alert_type := congrArg (fun v => v.2.1) hab
      have hsev : a.severity = b.severity := congrArg (fun v => v.2.2.1) hab
      have hmsg : a.message = b.message := congrArg (fun v => v.2.2.2.1) hab
      have hact : a.is_active = b.is_active := congrArg (fun v => v.2.2.2.2) hab
      simp only [resolveGroup, List.map_cons, List.cons.injEq]
      refine ⟨?_, ih bs ht⟩
      by_cases hc : a.device_id = d ∧ a.alert_type ∈ group ∧ a.is_active = true
      · rw [if_pos hc, if_pos (by rw [← hd, ← hty, ← hact]; exact hc)]
        simp only [alertView]
        rw [hd, hty, hsev, hmsg]
      · rw [if_neg hc, if_neg (by rw [← hd, ← hty, ← hact]; exact hc)]
        exact hab

lemma openAlerts_alerts_view (st : EngineState) (d : String)
    (evs : List AlertEvent) (n : ℕ) :
    ((openAlerts st d evs n).alerts).map alertView =
      st.alerts.map alertView ++
        evs.map (fun e => (d, e.alert_type, e.severity, e.message, true)) := by
  simp only [openAlerts, List.map_append, List.map_map]
  rfl

lemma simState_ingest (s1 s2 : EngineState) (r : Reading) (n1 n2 : ℕ) (ok : Bool)
    (h : SimState s1 s2) : SimState (ingest s1 r n1 ok).1 (ingest s2 r n2 ok).1 := by
  obtain ⟨hsd, hal, hth, hgh⟩ := h
  unfold ingest
  split_ifs
  · -- valid reading, storage up: the full handler body runs on both sides
    have hins : (insertReading s1 r n1).sensor_data.map sensorView =
        (insertReading s2 r n2).sensor_data.map sensorView := by
      simp only [insertReading, List.map_append, hsd, List.map_cons, List.map_nil, sensorView]
    have hwinT : (insertReading s1 r n1).temp_history = (insertReading s2 r n2).temp_history := by
      simp only [insertReading]
      rw [hth]
    have hwinG : (insertReading s1 r n1).gas_history = (insertReading s2 r n2).gas_history := by
      simp only [insertReading]
      rw [hgh]
    have hrollEq : rollingEvents (recentRows (insertReading s1 r n1).sensor_data r.device_id)
        r.temperature r.gas_level =
        rollingEvents (recentRows (insertReading s2 r n2).sensor_data r.device_id)
        r.temperature r.gas_level :=
      rollingEvents_congr _ _ _ _ (recentRows_map_congr _ _ _ hins)
    cases hr : rollingEvents (recentRows (insertReading s1 r n1).sensor_data r.device_id)
        r.temperature r.gas_level with
    | error e =>
      cases e
      rw [processReading_of_error s1 r n1 hr,
        processReading_of_error s2 r n2 (by rw [← hrollEq]; exact hr)]
      exact ⟨hins, hal, hwinT, hwinG⟩
    | ok evs =>
      rw [processReading_of_ok s1 r n1 evs hr,
        processReading_of_ok s2 r n2 evs (by rw [← hrollEq]; exact hr)]
      have hbase : baseEvents (insertReading s1 r n1) r = baseEvents (insertReading s2 r n2) r := by
        unfold baseEvents
        rw [hwinT, hwinG]
      have hopen : ((openAlerts (insertReading s1 r n1) r.device_id
          (baseEvents (insertReading s1 r n1) r ++ evs) n1).alerts).map alertView =
          ((openAlerts (insertReading s2 r n2) r.device_id
          (baseEvents (insertReading s2 r n2) r ++ evs) n2).alerts).map alertView := by
        rw [openAlerts_alerts_view, openAlerts_alerts_view, hbase,
          insertReading_alerts, insertReading_alerts, hal]
      refine ⟨hins, ?_, hwinT, hwinG⟩
      show ((autoResolve _ r n1).alerts).map alertView = ((autoResolve _ r n2).alerts).map alertView
      unfold autoResolve
      simp only
      split_ifs
      · exact resolveGroup_map_congr _ _ n1 n2 _ _ (resolveGroup_map_congr _ _ n1 n2 _ _ hopen)
      · exact resolveGroup_map_congr _ _ n1 n2 _ _ hopen
      · exact resolveGroup_map_congr _ _ n1 n2 _ _ hopen
      · exact hopen
  · exact ⟨hsd, hal, hth, hgh⟩
  · exact ⟨hsd, hal, hth, hgh⟩

lemma simState_runFrom (inputs : List (Reading × Bool)) :
    ∀ (s1 s2 : EngineState) (c1 c2 : ℕ → ℕ) (k1 k2 : ℕ), SimState s1 s2 →
      SimState (runFrom s1 inputs c1 k1) (runFrom s2 inputs c2 k2) := by
  induction inputs with
  | nil => intro s1 s2 c1 c2 k1 k2 h; exact h
  | cons p rest ih =>
    intro s1 s2 c1 c2 k1 k2 h
    exact ih _ _ c1 c2 (k1 + 1) (k2 + 1)
      (simState_ingest s1 s2 p.1 (c1 k1) (c2 k2) p.2 h)

/-- C9: replaying the same request stream against the fresh engine yields
the same alert ledger up to the wall-clock columns, whatever timestamps the
two runs observe: every row agrees on device_id, alert_type, severity,
message and is_active, in the same order (hence as a multiset). -/
theorem C9_replay_deterministic (inputs : List (Reading × Bool))
    (c1 c2 : ℕ → ℕ) (k1 k2 : ℕ) :
    ((runFrom initState inputs c1 k1).alerts).map alertView =
      ((runFrom initState inputs c2 k2).alerts).map alertView :=
  (simState_runFrom inputs initState initState c1 c2 k1 k2 ⟨rfl, rfl, rfl, rfl⟩).2.1

end IoTSafety
